import Mathlib

/-!
# Verification of the R2C client authentication and dispatch core

A shallow embedding of `src/index.ts` / `src/api.ts` of the `Sxip/r2c`
TypeScript client: the `R2CClient` constructor, the `APIClient` token
manager (`authHeaders`, `getOAuthToken`, `isTokenValid`, `fetchOAuthToken`,
`setToken`, `clearToken`) and the request dispatcher (`makeRequest`,
`parseResponse`).

Modelling conventions:
* JavaScript runtime values that flow through `unknown` positions are
  modelled by the inductive `Json` (JS numbers are modelled as integers;
  the claims under verification only exercise integral numbers).
* JS truthiness is modelled explicitly (`jsTruthy`, `strTruthy`); an
  absent (`undefined`) value is an `Option.none`.
* The injected `fetch` transport is modelled by passing the response the
  transport would produce as an explicit argument, and every operation
  reports the number of transport invocations it performed, so that
  "no network activity" claims are statements about that count.
* `async` control flow is sequentialized; the cooperative-concurrency
  behaviour of `getOAuthToken` (the `refreshPromise` de-duplication) is
  modelled separately by an explicit event-interleaving transition system
  (`ConcState`, `invokeStep`, `completeStep`).
-/

/-- JavaScript runtime values (the JSON fragment).  JS numbers are modelled
as integers: every number the claims exercise is integral. -/
inductive Json where
  | null : Json
  | bool : Bool → Json
  | num : Int → Json
  | str : String → Json
  | arr : List Json → Json
  | obj : List (String × Json) → Json

/-- JS truthiness of a value (`Bool(v)`): `null`, `false`, `0` and `""` are
falsy; arrays and objects are always truthy. -/
def jsTruthyVal : Json → Bool
  | .null => false
  | .bool b => b
  | .num n => n != 0
  | .str s => s != ""
  | .arr _ => true
  | .obj _ => true

/-- JS truthiness of a possibly-`undefined` value: `undefined` is falsy. -/
def jsTruthy : Option Json → Bool
  | none => false
  | some v => jsTruthyVal v

/-- JS truthiness of a `string | null | undefined` value: only a non-empty
string is truthy. -/
def strTruthy : Option String → Bool
  | none => false
  | some s => s != ""

/-- Property lookup `o["k"]` on a JS object value; `none` is `undefined`
(missing property, or a lookup on a non-object). -/
def jsField : Json → String → Option Json
  | .obj fields, k => (fields.find? (fun p => p.1 == k)).map (fun p => p.2)
  | _, _ => none

/-- JS string coercion as used by the template literal `Bearer ${token}` and
by `String(value)` in query building.  (On objects JS yields
`[object Object]`; on arrays it joins the coerced elements with commas.) -/
def jsToString : Json → String
  | .null => "null"
  | .bool true => "true"
  | .bool false => "false"
  | .num n => toString n
  | .str s => s
  | .arr xs => String.intercalate "," (jsToStringList xs)
  | .obj _ => "[object Object]"
where
  /-- Coerce each array element. -/
  jsToStringList : List Json → List String
    | [] => []
    | x :: xs => jsToString x :: jsToStringList xs

/-- JS numeric reading of a value, as used for `expires_in * 1000`.  The
source casts the parsed JSON to `{ expires_in: number }`, so only the
numeric case is exercised; non-numeric values are read as `0` here (the
truthiness guard in `fetchOAuthToken` is checked on the raw value, before
this conversion). -/
def jsToNumber : Option Json → Int
  | some (.num n) => n
  | _ => 0

/-- `JSON.stringify` on the modelled fragment.  String escaping is the
identity on the strings the claims exercise (no quotes or backslashes). -/
def jsonStringify : Json → String
  | .null => "null"
  | .bool true => "true"
  | .bool false => "false"
  | .num n => toString n
  | .str s => "\"" ++ s ++ "\""
  | .arr xs => "[" ++ String.intercalate "," (stringifyList xs) ++ "]"
  | .obj fields => "\x7b" ++ String.intercalate "," (stringifyFields fields) ++ "\x7d"
where
  /-- Serialize the elements of an array. -/
  stringifyList : List Json → List String
    | [] => []
    | x :: xs => jsonStringify x :: stringifyList xs
  /-- Serialize the fields of an object. -/
  stringifyFields : List (String × Json) → List String
    | [] => []
    | (k, v) :: fs => ("\"" ++ k ++ "\":" ++ jsonStringify v) :: stringifyFields fs

/-- `string.includes(pat)`: substring containment, via the split trick. -/
def strIncludes (s pat : String) : Bool := (s.splitOn pat).length > 1

/-- Header records (`Headers` / `Record<string, string>`) as association
lists of name/value pairs. -/
abbrev HeaderRecord := List (String × String)

/-- `headers.get(name)` of the fetch `Headers` class: name lookup is
case-insensitive. -/
def headersGet (headers : HeaderRecord) (name : String) : Option String :=
  (headers.find? (fun p => p.1.toLower == name.toLower)).map (fun p => p.2)

/-- `OAuthCredentials` (src/api.ts). -/
structure OAuthCredentials where
  username : String
  password : String
  site_id : String
  client_id : String
  client_secret : String
  identity_url : Option String
deriving DecidableEq

/-- `TokenCache` (src/api.ts): an access token with its absolute expiry
instant in epoch milliseconds. -/
structure TokenCache where
  access_token : String
  expires_at : Int
deriving DecidableEq

/-- `R2CError` (src/api.ts): the single normalized error shape — message,
optional HTTP status, optional response headers, optional raw body text. -/
structure R2CError where
  message : String
  status : Option Nat
  headers : Option HeaderRecord
  error : Option String
deriving DecidableEq

/-- The state of a fetch `Response` as the source consumes it: `ok`,
`status`, `statusText`, `headers`, the body read as text (`text()`), and
the body parsed as JSON (`json()`).  The injected transports of the
repository's own tests mock exactly these members. -/
structure HttpResponse where
  ok : Bool
  status : Nat
  statusText : String
  headers : HeaderRecord
  textBody : String
  jsonBody : Json

/-- `TOKEN_BUFFER_MS` (src/api.ts): refresh buffer before expiry. -/
def TOKEN_BUFFER_MS : Int := 60000

/-- The mutable state of one `APIClient` instance (baseURL, credentials and
the token cache; the `refreshPromise` field only matters under concurrency
and is modelled by the transition system further below). -/
structure ClientState where
  baseURL : String
  bearerToken : Option String
  oauthCredentials : Option OAuthCredentials
  tokenCache : Option TokenCache
deriving DecidableEq

/-- The default base URL of the resource API. -/
def DEFAULT_BASE_URL : String := "https://www.r2clive.com/api/Jobsheet/2"

/-- The `APIClient` constructor (src/api.ts): normalizes `bearerToken || null`
and `oauthCredentials || null`; the token cache starts absent.  The `fetch`
override is not part of the state here because the transport is passed
explicitly to each operation. -/
def APIClient.construct (baseURL : Option String) (bearerToken : Option String)
    (oauthCredentials : Option OAuthCredentials) : ClientState :=
  { baseURL := baseURL.getD DEFAULT_BASE_URL
    bearerToken := if strTruthy bearerToken then bearerToken else none
    oauthCredentials := oauthCredentials
    tokenCache := none }

/-- `ClientOptions` (src/index.ts): the options record accepted by the
`R2CClient` constructor (the transport override is modelled per-call). -/
structure ClientOptions where
  bearerToken : Option String
  oauthCredentials : Option OAuthCredentials
  baseURL : Option String

/-- The `R2CClient` constructor (src/index.ts): throws when neither
credential form is truthy, throws when both are truthy, otherwise delegates
to the `APIClient` constructor with `baseURL || default`.  Errors are
modelled by `Except.error`; the constructor performs no transport call by
construction (it takes no response argument). -/
def R2CClient.construct (opts : ClientOptions) : Except R2CError ClientState :=
  if ¬ strTruthy opts.bearerToken ∧ ¬ opts.oauthCredentials.isSome then
    .error ⟨"Either bearerToken or oauthCredentials is required", none, none, none⟩
  else if strTruthy opts.bearerToken ∧ opts.oauthCredentials.isSome then
    .error ⟨"Cannot provide both bearerToken and oauthCredentials. Choose one authentication method.",
      none, none, none⟩
  else
    .ok (APIClient.construct
      (some (if strTruthy opts.baseURL then opts.baseURL.getD DEFAULT_BASE_URL else DEFAULT_BASE_URL))
      opts.bearerToken opts.oauthCredentials)

/-- `isTokenValid` (src/api.ts): a cached token is valid while
`expires_at > now + TOKEN_BUFFER_MS`; an absent cache is invalid. -/
def isTokenValid (cache : Option TokenCache) (now : Int) : Bool :=
  match cache with
  | none => false
  | some tc => tc.expires_at > now + TOKEN_BUFFER_MS

deriving instance DecidableEq for Except

/-- The outcome of an operation on a client: its result (or thrown error),
the client state afterwards, and the number of transport invocations it
performed. -/
structure Outcome (α : Type) where
  result : Except R2CError α
  state : ClientState
  calls : Nat
deriving DecidableEq

/-- The response-processing core of `fetchOAuthToken` (src/api.ts lines
343–369): on non-`ok` status, fail with the status, headers and body text
(`Authentication failed: ${status} ${errorText}`); on success parse the
JSON body, fail if `access_token` or `expires_in` is absent or falsy, and
otherwise produce the new cache entry with
`expires_at = now + expires_in * 1000`.  (The outgoing form-encoded request
is not observed by any claim and is not modelled.) -/
def exchangeToken (now : Int) (resp : HttpResponse) : Except R2CError TokenCache :=
  if resp.ok = false then
    .error ⟨"Authentication failed: " ++ toString resp.status ++ " " ++ resp.textBody,
      some resp.status, some resp.headers, some resp.textBody⟩
  else
    let access_token := jsField resp.jsonBody "access_token"
    let expires_in := jsField resp.jsonBody "expires_in"
    if jsTruthy access_token = false ∨ jsTruthy expires_in = false then
      .error ⟨"Invalid token response from server", none, none, none⟩
    else
      .ok ⟨jsToString ((access_token).getD .null), now + jsToNumber expires_in * 1000⟩

/-- `fetchOAuthToken` (src/api.ts): throws synchronously (before any
transport call) when no OAuth credentials are configured; otherwise invokes
the transport once and processes the response with `exchangeToken`,
installing the new cache entry only on success. -/
def fetchOAuthToken (st : ClientState) (now : Int) (resp : HttpResponse) : Outcome String :=
  match st.oauthCredentials with
  | none => ⟨.error ⟨"OAuth credentials not configured", none, none, none⟩, st, 0⟩
  | some _ =>
    match exchangeToken now resp with
    | .error e => ⟨.error e, st, 1⟩
    | .ok tc => ⟨.ok tc.access_token, { st with tokenCache := some tc }, 1⟩

/-- `getOAuthToken` (src/api.ts), sequential view (a single caller, so the
`refreshPromise` handle is `null` on entry and cleared by the `finally`
before return): return the cached token when present and valid, otherwise
perform a fresh exchange. -/
def getOAuthToken (st : ClientState) (now : Int) (resp : HttpResponse) : Outcome String :=
  match st.tokenCache with
  | some tc =>
    if isTokenValid (some tc) now then ⟨.ok tc.access_token, st, 0⟩
    else fetchOAuthToken st now resp
  | none => fetchOAuthToken st now resp

/-- `authHeaders` (src/api.ts): OAuth mode resolves a token and yields the
`Authorization: Bearer <token>` header; otherwise a truthy static bearer
token is used directly with no transport call; otherwise the configuration
error is thrown. -/
def authHeaders (st : ClientState) (now : Int) (resp : HttpResponse) :
    Outcome HeaderRecord :=
  match st.oauthCredentials with
  | some _ =>
    let out := getOAuthToken st now resp
    ⟨out.result.map (fun token => [("Authorization", "Bearer " ++ token)]), out.state, out.calls⟩
  | none =>
    match st.bearerToken with
    | some tok =>
      if tok != "" then ⟨.ok [("Authorization", "Bearer " ++ tok)], st, 0⟩
      else ⟨.error ⟨"No authentication configured. Provide either bearerToken or oauthCredentials.",
        none, none, none⟩, st, 0⟩
    | none => ⟨.error ⟨"No authentication configured. Provide either bearerToken or oauthCredentials.",
        none, none, none⟩, st, 0⟩

/-- `clearToken` (src/api.ts): discard any cached token. -/
def clearToken (st : ClientState) : ClientState := { st with tokenCache := none }

/-- `setToken` (src/api.ts): install a token directly with
`expires_at = now + expiresIn * 1000`. -/
def setToken (st : ClientState) (token : String) (expiresIn : Int) (now : Int) : ClientState :=
  { st with tokenCache := some ⟨token, now + expiresIn * 1000⟩ }

/-- `defaultHeaders` (src/api.ts): `Content-Type: application/json` merged
with the resolved auth headers (object spread, auth entries override). -/
def recordSpread (base overrides : HeaderRecord) : HeaderRecord :=
  (base.map (fun p =>
    match overrides.find? (fun q => q.1 == p.1) with
    | some q => q
    | none => p)) ++
  overrides.filter (fun q => base.all (fun p => p.1 != q.1))

/-- The result of `parseResponse` as the caller observes it: the `null`
result of a 204, a parsed JSON body, or the raw body text. -/
inductive ParsedBody where
  | nullBody : ParsedBody
  | jsonBody : Json → ParsedBody
  | textBody : String → ParsedBody

/-- `parseResponse` (src/api.ts lines 404–424): a non-`ok` response raises
the normalized error with `HTTP Error ${status}: ${errorText || statusText}`,
the status, the headers, and the body text; a 204 returns the null result
without reading the body; otherwise a `content-type` containing
`application/json` yields the parsed JSON body, and anything else yields
the body text. -/
def parseResponse (resp : HttpResponse) : Except R2CError ParsedBody :=
  if resp.ok = false then
    .error ⟨"HTTP Error " ++ toString resp.status ++ ": " ++
        (if resp.textBody != "" then resp.textBody else resp.statusText),
      some resp.status, some resp.headers, some resp.textBody⟩
  else if resp.status = 204 then
    .ok .nullBody
  else
    match headersGet resp.headers "content-type" with
    | some ct =>
      if strIncludes ct "application/json" then .ok (.jsonBody resp.jsonBody)
      else .ok (.textBody resp.textBody)
    | none => .ok (.textBody resp.textBody)

/-- `RequestOptions` (src/api.ts): path, optional query mapping, optional
body, HTTP method and caller-supplied header overrides.  A query entry
whose value is JS `undefined` is simply not listed; `null` entries are
listed as `Json.null`. -/
structure RequestOptions where
  path : String
  query : Option (List (String × Json))
  body : Option Json
  method : String
  headers : HeaderRecord

/-- The wire request handed to the injected transport by `makeRequest`. -/
structure WireRequest where
  url : String
  method : String
  headers : HeaderRecord
  body : Option String
deriving DecidableEq

/-- The query-string building of `makeRequest` (src/api.ts lines 436–447):
entries whose value is `undefined` or `null` are skipped, the rest are
appended as `key=String(value)`.  (`URLSearchParams` percent-encoding is
the identity on the characters the claims exercise and is not modelled.) -/
def buildQueryString (query : List (String × Json)) : String :=
  String.intercalate "&"
    ((query.filter (fun p => match p.2 with | .null => false | _ => true)).map
      (fun p => p.1 ++ "=" ++ jsToString p.2))

/-- `makeRequest` (src/api.ts lines 431–462) up to the resource transport
call: compose `baseURL + path` (plus the query string when non-empty),
merge the default headers with the caller's overrides, and serialize the
body with `body ? JSON.stringify(body) : undefined`.  The outcome carries
the wire request the resource transport receives; `tokenResp` is what the
token-exchange transport would answer if auth resolution needs it, and
`calls` counts only token-exchange transport invocations. -/
def makeRequest (st : ClientState) (now : Int) (tokenResp : HttpResponse)
    (opts : RequestOptions) : Outcome WireRequest :=
  let url0 := st.baseURL ++ opts.path
  let url :=
    match opts.query with
    | none => url0
    | some q =>
      let queryString := buildQueryString q
      if queryString != "" then url0 ++ "?" ++ queryString else url0
  let auth := authHeaders st now tokenResp
  match auth.result with
  | .error e => ⟨.error e, auth.state, auth.calls⟩
  | .ok authRecord =>
    let defaults := recordSpread [("Content-Type", "application/json")] authRecord
    let headers := recordSpread defaults opts.headers
    let body : Option String :=
      match opts.body with
      | some b => if jsTruthyVal b then some (jsonStringify b) else none
      | none => none
    ⟨.ok ⟨url, opts.method, headers, body⟩, auth.state, auth.calls⟩

/-!
## Concurrency model of `getOAuthToken`

JavaScript's cooperative single-threaded scheduling makes each caller's
synchronous section atomic; a caller suspends only at `await`.  In
`getOAuthToken` a caller entering with no valid cached token either joins
the existing `refreshPromise` or installs one — and installing it runs
`fetchOAuthToken` synchronously up to the transport call, so the check and
the installation happen with no interleaving.  The transition system below
models an OAuth-mode client with `n` concurrent callers: an `invokeStep i`
is caller `i` running `getOAuthToken` up to its first suspension point, and
a `completeStep` is the settlement of the in-flight exchange (the transport
answering `resp`), which resumes every waiting caller with the same
outcome and clears the handle (the `finally` of `getOAuthToken`).
-/

/-- The control state of one caller of `getOAuthToken`. -/
inductive CallerSt where
  | start : CallerSt
  | waiting : CallerSt
  | done : Except R2CError String → CallerSt
deriving DecidableEq

/-- The shared state of an OAuth-mode client together with `n` callers:
the token cache, the `refreshPromise` handle (`inFlight`), the number of
token-exchange transport invocations so far, and each caller's state. -/
structure ConcState (n : Nat) where
  tokenCache : Option TokenCache
  inFlight : Bool
  fetchCount : Nat
  callers : Fin n → CallerSt

/-- The no-valid-cache path of a caller's synchronous prefix of
`getOAuthToken`: join the existing `refreshPromise` if one is installed
(`if (this.refreshPromise) return await this.refreshPromise`), otherwise
install it and invoke the transport (the synchronous prefix of
`fetchOAuthToken` up to `this.fetch(...)`), then suspend. -/
def joinOrStart {n : Nat} (s : ConcState n) (i : Fin n) : ConcState n :=
  if s.inFlight then
    { s with callers := Function.update s.callers i .waiting }
  else
    { s with inFlight := true
             fetchCount := s.fetchCount + 1
             callers := Function.update s.callers i .waiting }

/-- Caller `i` runs `getOAuthToken` up to its first suspension point: a
valid cached token (`if (this.tokenCache && this.isTokenValid())`) returns
immediately; otherwise the caller joins or starts the in-flight exchange. -/
def invokeStep {n : Nat} (now : Int) (s : ConcState n) (i : Fin n) : ConcState n :=
  match s.callers i with
  | .start =>
    match s.tokenCache with
    | some tc =>
      if isTokenValid (some tc) now then
        { s with callers := Function.update s.callers i (.done (.ok tc.access_token)) }
      else joinOrStart s i
    | none => joinOrStart s i
  | _ => s

/-- The in-flight exchange settles with the transport's response `resp`:
the cache is updated exactly as `fetchOAuthToken` does, every waiting
caller resumes with the same outcome, and the handle is cleared. -/
def completeStep {n : Nat} (now : Int) (resp : HttpResponse) (s : ConcState n) : ConcState n :=
  if s.inFlight then
    match exchangeToken now resp with
    | .error e =>
      { s with inFlight := false
               callers := fun j => match s.callers j with
                 | .waiting => .done (.error e)
                 | c => c }
    | .ok tc =>
      { s with inFlight := false
               tokenCache := some tc
               callers := fun j => match s.callers j with
                 | .waiting => .done (.ok tc.access_token)
                 | c => c }
  else s

/-- Run a batch of caller invocations in the scheduler's chosen order. -/
def runInvokes {n : Nat} (now : Int) (s : ConcState n) (evs : List (Fin n)) : ConcState n :=
  evs.foldl (invokeStep now) s

/-- The initial state: cache `c₀`, no in-flight exchange, no transport
invocations, every caller about to call `getOAuthToken`. -/
def initConc (n : Nat) (c₀ : Option TokenCache) : ConcState n :=
  ⟨c₀, false, 0, fun _ => .start⟩

/-- The outcome all concurrent callers observe from one settled exchange. -/
def exchangeOutcome (now : Int) (resp : HttpResponse) : Except R2CError String :=
  (exchangeToken now resp).map (fun tc => tc.access_token)

/-- Characterization of the shared state after the callers listed in `A`
have each run their synchronous prefix of `getOAuthToken` (starting from an
invalid cache `c₀`): the cache is untouched, an exchange is in flight iff
some caller has run, the transport has been invoked once iff some caller
has run, and exactly the callers in `A` are waiting. -/
def invokedState (n : Nat) (c₀ : Option TokenCache) (A : List (Fin n)) : ConcState n :=
  { tokenCache := c₀
    inFlight := if A = [] then false else true
    fetchCount := if A = [] then 0 else 1
    callers := fun i => if i ∈ A then .waiting else .start }

/-! Concrete fixtures used by witnesses and counterexamples. -/

/-- A bearer-mode client as built by the `APIClient` constructor. -/
def bearerClient : ClientState := APIClient.construct (some DEFAULT_BASE_URL) (some "t1") none

/-- A `POST` whose supplied body is the falsy value `0`. -/
def falsyBodyOptions : RequestOptions := ⟨"/x", none, some (.num 0), "POST", []⟩

/-- A `POST` whose supplied body is the truthy string `"a"`. -/
def truthyBodyOptions : RequestOptions := ⟨"/x", none, some (.str "a"), "POST", []⟩

/-- A successful token-exchange response: `{access_token: "a", expires_in: 3600}`. -/
def okTokenResponse : HttpResponse :=
  ⟨true, 200, "OK", [("content-type", "application/json")], "",
    .obj [("access_token", .str "a"), ("expires_in", .num 3600)]⟩

/-- A `401` token-exchange response with body `"bad creds"`. -/
def badCredsResponse : HttpResponse := ⟨false, 401, "Unauthorized", [], "bad creds", .null⟩

/-- A malformed successful exchange response: 2xx but no `access_token`. -/
def malformedTokenResponse : HttpResponse :=
  ⟨true, 200, "OK", [], "", .obj [("expires_in", .num 3600)]⟩

/-- A `204 No Content` response whose header claims `application/json`. -/
def noContentResponse : HttpResponse :=
  ⟨true, 204, "No Content", [("content-type", "application/json")], "", .null⟩

/-- An OAuth-mode credential set fixture. -/
def sampleCreds : OAuthCredentials := ⟨"user", "pass", "site", "client", "secret", none⟩

/-- An OAuth-mode client holding a stale cached token (already inside the
60-second buffer at `now = 0`). -/
def staleOAuthClient : ClientState :=
  { baseURL := DEFAULT_BASE_URL
    bearerToken := none
    oauthCredentials := some sampleCreds
    tokenCache := some ⟨"old", 1000⟩ }

/-!
## Theorems
-/

/-- C7: constructing a client with neither a (truthy) `bearerToken` nor
`oauthCredentials`, or with both, raises a configuration error; the
constructor succeeds exactly when one and only one credential form is
supplied.  The construction is synchronous and performs no network
activity by construction: `R2CClient.construct` takes no transport
response and reports no transport call. -/
theorem c7_construction_validity (opts : ClientOptions) :
    (R2CClient.construct opts).isOk =
      ((strTruthy opts.bearerToken).xor opts.oauthCredentials.isSome) := by
  unfold R2CClient.construct
  cases hb : strTruthy opts.bearerToken <;> cases ho : opts.oauthCredentials.isSome <;>
    simp [hb, ho, Except.isOk, Except.toBool]

/-- C10: credential presence is decided by truthiness.  An empty-string
`bearerToken` with no `oauthCredentials` raises the "neither form given"
error (not the "both given" one, and not a successful empty static token);
an empty-string `bearerToken` together with `oauthCredentials` is accepted
as an OAuth-only client whose stored bearer token is `null`. -/
theorem c10_truthiness_decides_presence :
    (∀ bu, R2CClient.construct ⟨some "", none, bu⟩ =
        .error ⟨"Either bearerToken or oauthCredentials is required", none, none, none⟩) ∧
    (∀ creds bu, R2CClient.construct ⟨some "", some creds, bu⟩ =
        .ok { baseURL := if strTruthy bu then bu.getD DEFAULT_BASE_URL else DEFAULT_BASE_URL
              bearerToken := none
              oauthCredentials := some creds
              tokenCache := none }) := by
  constructor
  · intro bu
    rfl
  · intro creds bu
    cases bu <;> rfl

/-- C4: a client constructed with only a static `bearerToken` resolves
auth headers to exactly that token immediately: the outcome is
`Authorization: Bearer <token>`, the state (in particular the absent token
cache) is untouched, and zero transport calls are made whatever the
transport would answer. -/
theorem c4_static_bearer_resolution (t : String) (bu : Option String) (st : ClientState)
    (now : Int) (resp : HttpResponse)
    (ht : t ≠ "") (hmk : R2CClient.construct ⟨some t, none, bu⟩ = .ok st) :
    st.tokenCache = none ∧
      authHeaders st now resp = ⟨.ok [("Authorization", "Bearer " ++ t)], st, 0⟩ := by
  have hb : strTruthy (some t) = true := by simpa [strTruthy] using ht
  rw [R2CClient.construct] at hmk
  simp [hb] at hmk
  subst hmk
  refine ⟨rfl, ?_⟩
  simp [authHeaders, APIClient.construct, hb, ht]

/-- Witness for C4 at `t = "t1"`. -/
theorem c4_static_bearer_resolution_witness :
    bearerClient.tokenCache = none ∧
      authHeaders bearerClient 0 okTokenResponse =
        ⟨.ok [("Authorization", "Bearer t1")], bearerClient, 0⟩ :=
  c4_static_bearer_resolution "t1" (some DEFAULT_BASE_URL) bearerClient 0 okTokenResponse
    (by decide) (by rfl)

/-- C6: every successful response with status 204 parses to the null
result, whatever the response's headers claim (including a
`content-type: application/json`). -/
theorem c6_no_content_yields_null (resp : HttpResponse)
    (hok : resp.ok = true) (h204 : resp.status = 204) :
    parseResponse resp = .ok .nullBody := by
  simp [parseResponse, hok, h204]

/-- Witness for C6: a 204 whose header claims `application/json`. -/
theorem c6_no_content_yields_null_witness :
    parseResponse noContentResponse = .ok .nullBody :=
  c6_no_content_yields_null noContentResponse (by rfl) (by rfl)

/-- C2: in OAuth mode, a cached token whose expiry is strictly later than
`now + 60s` is returned with no transport invocation and no state change;
when the cache is absent, expired, or within the 60-second buffer
(`isTokenValid` false), resolution performs exactly one exchange and, on
success, replaces the cache with the newly returned token. -/
theorem c2_cache_validity_rule (st : ClientState) (creds : OAuthCredentials)
    (now : Int) (resp : HttpResponse) (hcreds : st.oauthCredentials = some creds) :
    (∀ tc, st.tokenCache = some tc → tc.expires_at > now + 60000 →
        getOAuthToken st now resp = ⟨.ok tc.access_token, st, 0⟩) ∧
    (isTokenValid st.tokenCache now = false →
        (getOAuthToken st now resp).calls = 1 ∧
        ∀ tok, (getOAuthToken st now resp).result = .ok tok →
          ∃ e, (getOAuthToken st now resp).state.tokenCache = some ⟨tok, e⟩) := by
  constructor
  · intro tc h1 h2
    simp [getOAuthToken, h1, isTokenValid, TOKEN_BUFFER_MS, h2]
  · intro hv
    have hfetch : (fetchOAuthToken st now resp).calls = 1 ∧
        ∀ tok, (fetchOAuthToken st now resp).result = .ok tok →
          ∃ e, (fetchOAuthToken st now resp).state.tokenCache = some ⟨tok, e⟩ := by
      cases hex : exchangeToken now resp with
      | error e => simp [fetchOAuthToken, hcreds, hex]
      | ok tc' =>
        refine ⟨by simp [fetchOAuthToken, hcreds, hex], ?_⟩
        intro tok htok
        simp [fetchOAuthToken, hcreds, hex] at htok ⊢
        exact ⟨tc'.expires_at, by cases tc' with | mk a e => simpa using htok⟩
    cases hc : st.tokenCache with
    | none => simpa [getOAuthToken, hc] using hfetch
    | some tc =>
      rw [hc] at hv
      simpa [getOAuthToken, hc, hv] using hfetch

/-- Witness for C2: at `now = 0`, a token expiring at `1000000` (beyond the
buffer) is reused with no call, and the stale client (token expiring at
`1000`) performs exactly one exchange and installs the fresh token. -/
theorem c2_cache_validity_rule_witness :
    (getOAuthToken { staleOAuthClient with tokenCache := some ⟨"fresh", 1000000⟩ } 0 okTokenResponse =
        ⟨.ok "fresh", { staleOAuthClient with tokenCache := some ⟨"fresh", 1000000⟩ }, 0⟩) ∧
      ((getOAuthToken staleOAuthClient 0 okTokenResponse).calls = 1 ∧
        ∀ tok, (getOAuthToken staleOAuthClient 0 okTokenResponse).result = .ok tok →
          ∃ e, (getOAuthToken staleOAuthClient 0 okTokenResponse).state.tokenCache = some ⟨tok, e⟩) :=
  ⟨(c2_cache_validity_rule { staleOAuthClient with tokenCache := some ⟨"fresh", 1000000⟩ }
      sampleCreds 0 okTokenResponse (by rfl)).1 ⟨"fresh", 1000000⟩ (by rfl) (by decide),
   (c2_cache_validity_rule staleOAuthClient sampleCreds 0 okTokenResponse (by rfl)).2 (by decide)⟩

/-- C8: after `setToken t ttl` at instant `now₀` on an OAuth-mode client,
resolution at instant `now` returns `t` with no transport call while the
installed expiry `now₀ + ttl·1000` is still more than 60 seconds away;
once within the buffer, the next resolution performs an exchange. -/
theorem c8_set_token_lifecycle (st : ClientState) (creds : OAuthCredentials)
    (t : String) (ttl now₀ now : Int) (resp : HttpResponse)
    (hcreds : st.oauthCredentials = some creds) :
    (now₀ + ttl * 1000 > now + 60000 →
        getOAuthToken (setToken st t ttl now₀) now resp = ⟨.ok t, setToken st t ttl now₀, 0⟩) ∧
    (¬ (now₀ + ttl * 1000 > now + 60000) →
        (getOAuthToken (setToken st t ttl now₀) now resp).calls = 1) := by
  constructor
  · intro h
    simp [getOAuthToken, setToken, isTokenValid, TOKEN_BUFFER_MS, h]
  · intro h
    have hcreds' : (setToken st t ttl now₀).oauthCredentials = some creds := hcreds
    cases hex : exchangeToken now resp with
    | error e =>
      simp [getOAuthToken, setToken, isTokenValid, TOKEN_BUFFER_MS, h,
        fetchOAuthToken, hcreds, hex]
    | ok tc' =>
      simp [getOAuthToken, setToken, isTokenValid, TOKEN_BUFFER_MS, h,
        fetchOAuthToken, hcreds, hex]

/-- Witness for C8: a token set with `ttl = 3600` at `now₀ = 0` is returned
directly at `now = 0`, and at `now = 3599000` (inside the buffer) the next
resolution performs one exchange. -/
theorem c8_set_token_lifecycle_witness :
    (getOAuthToken (setToken staleOAuthClient "manual" 3600 0) 0 okTokenResponse =
        ⟨.ok "manual", setToken staleOAuthClient "manual" 3600 0, 0⟩) ∧
      (getOAuthToken (setToken staleOAuthClient "manual" 3600 0) 3599000 okTokenResponse).calls = 1 :=
  ⟨(c8_set_token_lifecycle staleOAuthClient sampleCreds "manual" 3600 0 0 okTokenResponse
      (by rfl)).1 (by decide),
   (c8_set_token_lifecycle staleOAuthClient sampleCreds "manual" 3600 0 3599000 okTokenResponse
      (by rfl)).2 (by decide)⟩

/-- C3: every non-2xx response raises the single normalized error shape.
Both the resource dispatch (`parseResponse`) and the token exchange
(`fetchOAuthToken`) produce an `R2CError` carrying the original status
code, the response headers, the body read verbatim as text, and a message
that spells out the status code (`HTTP Error <status>: ...` resp.
`Authentication failed: <status> <body>`). -/
theorem c3_normalized_error_shape (resp : HttpResponse) (st : ClientState)
    (creds : OAuthCredentials) (now : Int)
    (hok : resp.ok = false) (hcreds : st.oauthCredentials = some creds) :
    parseResponse resp =
      .error ⟨"HTTP Error " ++ toString resp.status ++ ": " ++
          (if resp.textBody != "" then resp.textBody else resp.statusText),
        some resp.status, some resp.headers, some resp.textBody⟩ ∧
    fetchOAuthToken st now resp =
      ⟨.error ⟨"Authentication failed: " ++ toString resp.status ++ " " ++ resp.textBody,
          some resp.status, some resp.headers, some resp.textBody⟩, st, 1⟩ := by
  constructor
  · simp [parseResponse, hok]
  · simp [fetchOAuthToken, exchangeToken, hcreds, hok]

/-- Witness for C3: the 401 exchange response with body `"bad creds"`
yields the error with status 401 and raw body `"bad creds"`. -/
theorem c3_normalized_error_shape_witness :
    parseResponse badCredsResponse =
      .error ⟨"HTTP Error 401: bad creds", some 401, some [], some "bad creds"⟩ ∧
    fetchOAuthToken staleOAuthClient 0 badCredsResponse =
      ⟨.error ⟨"Authentication failed: 401 bad creds", some 401, some [], some "bad creds"⟩,
        staleOAuthClient, 1⟩ :=
  c3_normalized_error_shape badCredsResponse staleOAuthClient sampleCreds 0 (by rfl) (by rfl)

/-- C9: a failed token exchange leaves the client state — in particular any
previously cached token — untouched, whether the failure is a non-2xx
status or a 2xx response whose `access_token` or `expires_in` is absent or
falsy; the cache is replaced only when the exchange returns a token, and
then it holds exactly that token. -/
theorem c9_failed_exchange_preserves_cache (st : ClientState) (now : Int)
    (resp : HttpResponse) :
    (∀ e, (fetchOAuthToken st now resp).result = .error e →
        (fetchOAuthToken st now resp).state = st) ∧
    (∀ tok, (fetchOAuthToken st now resp).result = .ok tok →
        ∃ exp, (fetchOAuthToken st now resp).state.tokenCache = some ⟨tok, exp⟩) := by
  cases hc : st.oauthCredentials with
  | none => simp [fetchOAuthToken, hc]
  | some creds =>
    cases hex : exchangeToken now resp with
    | error e => simp [fetchOAuthToken, hc, hex]
    | ok tc' =>
      refine ⟨by simp [fetchOAuthToken, hc, hex], ?_⟩
      intro tok htok
      simp [fetchOAuthToken, hc, hex] at htok ⊢
      exact ⟨tc'.expires_at, by cases tc' with | mk a e => simpa using htok⟩

/-- Witness for C9: the stale cached token (even though it is already
inside the 60-second buffer at `now = 0`) survives both a 401 exchange and
a malformed 2xx exchange missing `access_token`. -/
theorem c9_failed_exchange_preserves_cache_witness :
    (fetchOAuthToken staleOAuthClient 0 badCredsResponse).state = staleOAuthClient ∧
      (fetchOAuthToken staleOAuthClient 0 malformedTokenResponse).state = staleOAuthClient :=
  ⟨(c9_failed_exchange_preserves_cache staleOAuthClient 0 badCredsResponse).1
      ⟨"Authentication failed: 401 bad creds", some 401, some [], some "bad creds"⟩ (by rfl),
   (c9_failed_exchange_preserves_cache staleOAuthClient 0 malformedTokenResponse).1
      ⟨"Invalid token response from server", none, none, none⟩ (by rfl)⟩

/-- C5 counterexample: the claim "a supplied body is sent even when it
encodes to a falsy value" is false on the code.  The body `0` is supplied
(and `JSON.stringify(0)` is `"0"`), yet `makeRequest` puts no body on the
wire: `body ? JSON.stringify(body) : undefined` drops every falsy body. -/
theorem c5_counterexample_falsy_body_dropped :
    falsyBodyOptions.body = some (.num 0) ∧
    jsonStringify (.num 0) = "0" ∧
    makeRequest bearerClient 0 okTokenResponse falsyBodyOptions =
      ⟨.ok ⟨DEFAULT_BASE_URL ++ "/x", "POST",
          [("Content-Type", "application/json"), ("Authorization", "Bearer t1")], none⟩,
        bearerClient, 0⟩ :=
  ⟨rfl, rfl, rfl⟩

/-- C5 (amended): for every dispatched request, the wire request carries
the body's JSON encoding exactly when a body was supplied and is truthy;
a supplied body that is falsy (`0`, `false`, `""`, `null`) is omitted from
the wire just like an absent body. -/
theorem c5_amended_body_serialization (st : ClientState) (now : Int)
    (tokenResp : HttpResponse) (opts : RequestOptions) (w : WireRequest)
    (h : (makeRequest st now tokenResp opts).result = .ok w) :
    w.body = match opts.body with
      | some b => if jsTruthyVal b then some (jsonStringify b) else none
      | none => none := by
  unfold makeRequest at h
  cases hauth : (authHeaders st now tokenResp).result with
  | error e => simp [hauth] at h
  | ok rec =>
    simp [hauth] at h
    subst h
    rfl

/-- Witness for C5 (amended): the truthy body `"a"` is serialized onto the
wire as `"\"a\""`. -/
theorem c5_amended_body_serialization_witness :
    (⟨DEFAULT_BASE_URL ++ "/x", "POST",
        [("Content-Type", "application/json"), ("Authorization", "Bearer t1")],
        some "\"a\""⟩ : WireRequest).body =
      match truthyBodyOptions.body with
      | some b => if jsTruthyVal b then some (jsonStringify b) else none
      | none => none :=
  c5_amended_body_serialization bearerClient 0 okTokenResponse truthyBodyOptions
    ⟨DEFAULT_BASE_URL ++ "/x", "POST",
      [("Content-Type", "application/json"), ("Authorization", "Bearer t1")],
      some "\"a\""⟩ (by rfl)


/-- Updating one more caller to `waiting` extends the waiting set by that
caller. -/
theorem update_waiting_append {n : Nat} (A : List (Fin n)) (e : Fin n) :
    Function.update (fun i => if i ∈ A then CallerSt.waiting else .start) e .waiting =
      fun i => if i ∈ A ++ [e] then CallerSt.waiting else .start := by
  funext i
  by_cases hie : i = e
  · subst hie
    simp [Function.update, List.mem_append]
  · simp [Function.update, hie, List.mem_append]

/-- Joining or starting the exchange from the invoked-set characterization
appends the caller to the waiting set; the transport count becomes (or
stays) one. -/
theorem joinOrStart_invokedState {n : Nat} (c₀ : Option TokenCache)
    (A : List (Fin n)) (e : Fin n) :
    joinOrStart (invokedState n c₀ A) e = invokedState n c₀ (A ++ [e]) := by
  by_cases hA : A = []
  · subst hA
    simp [joinOrStart, invokedState]
    funext i
    by_cases hie : i = e <;> simp [Function.update, hie]
  · simp [joinOrStart, invokedState, hA, update_waiting_append A e]

/-- One `invokeStep` from the invoked-set characterization, starting from
an invalid cache: the caller joins the waiting set (installing the handle
and invoking the transport only if it is the first to run). -/
theorem invokeStep_invokedState {n : Nat} (now : Int) (c₀ : Option TokenCache)
    (hInvalid : isTokenValid c₀ now = false) (A : List (Fin n)) (e : Fin n) :
    invokeStep now (invokedState n c₀ A) e = invokedState n c₀ (A ++ [e]) := by
  by_cases he : e ∈ A
  · have hA : A ≠ [] := fun h => by subst h; exact (List.not_mem_nil e) he
    have hcal : (invokedState n c₀ A).callers e = .waiting := by simp [invokedState, he]
    have hstep : invokeStep now (invokedState n c₀ A) e = invokedState n c₀ A := by
      unfold invokeStep
      rw [hcal]
    have hcallers : (fun i : Fin n => if i ∈ A then CallerSt.waiting else .start) =
        (fun i => if i ∈ A ++ [e] then CallerSt.waiting else .start) := by
      funext i
      by_cases hi : i ∈ A
      · simp [hi, List.mem_append]
      · have hie : i ≠ e := fun h => hi (h ▸ he)
        simp [hi, hie, List.mem_append]
    rw [hstep]
    simp [invokedState, hA, hcallers]
  · have hcal : (invokedState n c₀ A).callers e = .start := by simp [invokedState, he]
    have hstep : invokeStep now (invokedState n c₀ A) e = joinOrStart (invokedState n c₀ A) e := by
      unfold invokeStep
      rw [hcal]
      cases c₀ with
      | none => rfl
      | some tc =>
        show (if isTokenValid (some tc) now then _ else joinOrStart _ e) = _
        rw [hInvalid]
        simp
    rw [hstep, joinOrStart_invokedState]

/-- Running any batch of invocations from the invoked-set characterization
appends those callers to the waiting set. -/
theorem runInvokes_invokedState {n : Nat} (now : Int) (c₀ : Option TokenCache)
    (hInvalid : isTokenValid c₀ now = false) :
    ∀ (evs A : List (Fin n)),
      runInvokes now (invokedState n c₀ A) evs = invokedState n c₀ (A ++ evs) := by
  intro evs
  induction evs with
  | nil => intro A; simp [runInvokes]
  | cons e evs ih =>
    intro A
    show runInvokes now (invokeStep now (invokedState n c₀ A) e) evs = _
    rw [invokeStep_invokedState now c₀ hInvalid A e, ih (A ++ [e])]
    simp

/-- The initial state is the empty invoked set. -/
theorem initConc_eq_invokedState (n : Nat) (c₀ : Option TokenCache) :
    initConc n c₀ = invokedState n c₀ [] := rfl

/-- C1: with no valid cached token, however the scheduler interleaves `n`
concurrent callers of `getOAuthToken` (any order, any repetitions, every
caller invoking before the exchange settles), the token-exchange transport
is invoked exactly once, and once the exchange settles every caller
observes that single exchange's outcome — the same resolved token on
success, the same error on failure; no caller triggers an independent
exchange. -/
theorem c1_single_exchange (n : Nat) (c₀ : Option TokenCache) (now : Int)
    (resp : HttpResponse) (evs : List (Fin n)) (hn : 0 < n)
    (hInvalid : isTokenValid c₀ now = false) (hAll : ∀ i : Fin n, i ∈ evs) :
    (completeStep now resp (runInvokes now (initConc n c₀) evs)).fetchCount = 1 ∧
    ∀ i : Fin n,
      (completeStep now resp (runInvokes now (initConc n c₀) evs)).callers i =
        .done (exchangeOutcome now resp) := by
  have hev : evs ≠ [] := fun h => by
    subst h; exact (List.not_mem_nil _) (hAll ⟨0, hn⟩)
  have hrun : runInvokes now (initConc n c₀) evs = invokedState n c₀ evs := by
    rw [initConc_eq_invokedState, runInvokes_invokedState now c₀ hInvalid evs []]
    simp
  have hstate : invokedState n c₀ evs =
      ⟨c₀, true, 1, fun i => if i ∈ evs then .waiting else .start⟩ := by
    simp [invokedState, hev]
  rw [hrun, hstate]
  cases hex : exchangeToken now resp with
  | error e =>
    refine ⟨by simp [completeStep, hex], ?_⟩
    intro i
    simp [completeStep, hex, hAll i, exchangeOutcome, Except.map]
  | ok tc =>
    refine ⟨by simp [completeStep, hex], ?_⟩
    intro i
    simp [completeStep, hex, hAll i, exchangeOutcome, Except.map]

/-- Witness for C1: two callers scheduled as `[1, 0]` from an empty cache,
with the exchange answering `{access_token: "a", expires_in: 3600}` —
one transport invocation, and both callers resolve `"a"`. -/
theorem c1_single_exchange_witness :
    (completeStep 0 okTokenResponse (runInvokes 0 (initConc 2 none) [1, 0])).fetchCount = 1 ∧
    ∀ i : Fin 2,
      (completeStep 0 okTokenResponse (runInvokes 0 (initConc 2 none) [1, 0])).callers i =
        .done (exchangeOutcome 0 okTokenResponse) :=
  c1_single_exchange 2 none 0 okTokenResponse [1, 0] (by decide) (by decide) (by decide)
